import Mathlib

/-!
Shallow embedding of the process supervisor in
src/Baselines/BaselineVSLAMLab.py (class BaselineVSLAMLab): the methods
kill_process, monitor_memory and execute, together with the constants they
use from src/path_constants.py.  Memory amounts are modelled as rationals
(the Python code works with floats obtained by dividing byte counts by
1024^3); the sampling loop is modelled as a fold over the finite list of
samples the monitor thread observes while the child process is alive.
-/

namespace VSLAMLab

/-- From src/path_constants.py line 24. -/
def TRAJECTORY_FILE_NAME : String := "KeyFrameTrajectory"

/-- monitor_memory line 169: MAX_SWAP_PERC = 0.80. -/
def MAX_SWAP_PERC : ℚ := 80 / 100

/-- monitor_memory line 170: MAX_RAM_PERC = 0.95. -/
def MAX_RAM_PERC : ℚ := 95 / 100

/-- Python str.zfill: left-pad with zeros to the given width. -/
def zfill (width : ℕ) (s : String) : String :=
  if width ≤ s.length then s
  else String.mk (List.replicate (width - s.length) '0') ++ s

/-- The expected artifact file name relative to exp_folder
(execute line 274): str(exp_it).zfill(5) + "_KeyFrameTrajectory.csv". -/
def artifactName (exp_it : ℕ) : String :=
  zfill 5 (toString exp_it) ++ "_" ++ TRAJECTORY_FILE_NAME ++ ".csv"

/-- Models Python float formatting with :.1f (one decimal digit),
used in the breach diagnostics. -/
def fmt1 (q : ℚ) : String :=
  toString (round (q * 10) / 10 : ℤ) ++ "." ++ toString ((round (q * 10) : ℤ) % 10).natAbs

/-- Models Python float formatting with :.0%, used in the breach
diagnostics. -/
def fmt0pct (q : ℚ) : String := toString (round (q * 100) : ℤ) ++ "%"

/-- The RAM diagnostic of monitor_memory line 208. -/
def ramBreachMsg (ram_used ram_max : ℚ) : String :=
  "RAM threshold exceeded: " ++ fmt1 ram_used ++ "/" ++ fmt1 ram_max ++
    " GB (> " ++ fmt0pct MAX_RAM_PERC ++ ")"

/-- The swap diagnostic of monitor_memory line 216. -/
def swapBreachMsg (swap_used swap_max : ℚ) : String :=
  "Swap threshold exceeded: " ++ fmt1 swap_used ++ "/" ++ fmt1 swap_max ++
    " GB (> " ++ fmt0pct MAX_SWAP_PERC ++ ")"

/-- The timeout comment assigned in execute line 266. -/
def timeoutComment (timeout_seconds : ℕ) : String :=
  "Process took too long > " ++ toString timeout_seconds ++ " seconds. Process killed."

/-- Errors raised by the OS calls the supervisor makes.  processLookup
models ProcessLookupError from os.getpgid or os.killpg on a pid that no
longer exists. -/
inductive OSError where
  | processLookup
deriving DecidableEq, Repr

/-- Log severity of print_msg calls. -/
inductive LogLevel where
  | error
  | info
deriving DecidableEq, Repr

/-- The state of the child process as kill_process observes it:
pidExists is whether os.getpgid(process.pid) succeeds (false once the
process has exited and been reaped), diesOnSigterm is whether
process.wait(timeout=5) returns before its 5 second deadline after the
SIGTERM. -/
structure ProcState where
  pidExists : Bool
  diesOnSigterm : Bool
deriving DecidableEq, Repr

/-- The observable effects of one kill_process call: which signals were
sent to the process group and the log messages printed. -/
structure KillOutcome where
  sigterm : Bool
  sigkill : Bool
  logs : List (String × LogLevel)
deriving DecidableEq, Repr

/-- BaselineVSLAMLab.kill_process (lines 160-166).  os.killpg(os.getpgid
(process.pid), SIGTERM) raises ProcessLookupError when the pid is gone;
only subprocess.TimeoutExpired from the 5 second wait is caught, in which
case SIGKILL is sent to the group; one error-level "Process killed."
message is printed at the end of a completed call. -/
def kill_process (p : ProcState) : Except OSError KillOutcome :=
  if p.pidExists then
    Except.ok
      { sigterm := true
      , sigkill := !p.diesOnSigterm
      , logs := [("Process killed.", LogLevel.error)] }
  else
    Except.error OSError.processLookup

/-- One reading of the system counters taken on a tick of the monitor
loop while process.poll() is None.  gpuUsed is none when
nvmlDeviceGetMemoryInfo raises on that tick. -/
structure Sample where
  ramUsed : ℚ
  swapUsed : ℚ
  gpuUsed : Option ℚ
deriving DecidableEq, Repr

/-- The environment monitor_memory runs in: whether a GPU handle was
obtained at NVML initialization (lines 172-179), the baseline snapshots
and totals (lines 181-192), and the successive samples the loop reads
while the child process is alive (the list ends when the process exits or
a psutil exception breaks the loop). -/
structure MonitorEnv where
  gpu_handle : Bool
  swap_0 : ℚ
  swap_max : ℚ
  ram_0 : ℚ
  ram_max : ℚ
  gpu_0 : ℚ
  samples : List Sample
deriving DecidableEq, Repr

/-- Usage ratio as computed on lines 204-205: used / total when
total > 0, else 0. -/
def perc (used total : ℚ) : ℚ := if 0 < total then used / total else 0

/-- The outcome of a completed monitor_memory call: the comment_queue
contents in emission order, the writes made to success_flag[0], whether
kill_process was invoked, and the memory_stats entries stored on lines
246-248. -/
structure MonitorResult where
  diagnostics : List String
  flagWrites : List Bool
  killed : Bool
  ram : ℚ
  swap : ℚ
  gpu : ℚ
deriving DecidableEq, Repr

/-- The gpu accumulator update of lines 227-232: only when a handle
exists, and a failed per-tick reading is ignored. -/
def gpuStep (env : MonitorEnv) (g : ℚ) (x : Sample) : ℚ :=
  if env.gpu_handle then
    match x.gpuUsed with
    | some v => max g (v - env.gpu_0)
    | none => g
  else g

/-- The sampling loop of monitor_memory (lines 194-237), recursing over
the remaining samples with the three incremental maxima as accumulators.
On a tick the RAM ratio is tested first; a breach emits one diagnostic,
writes false to success_flag[0], invokes kill_process and breaks, leaving
the accumulators untouched; otherwise the swap ratio is tested the same
way; otherwise the accumulators are updated and the loop continues. -/
def monitorLoop (env : MonitorEnv) :
    List Sample → ℚ → ℚ → ℚ → MonitorResult
  | [], ram_inc_max, swap_inc_max, gpu_inc_max =>
      { diagnostics := []
      , flagWrites := []
      , killed := false
      , ram := ram_inc_max
      , swap := swap_inc_max
      , gpu := gpu_inc_max }
  | x :: rest, ram_inc_max, swap_inc_max, gpu_inc_max =>
      if MAX_RAM_PERC < perc x.ramUsed env.ram_max then
        { diagnostics := [ramBreachMsg x.ramUsed env.ram_max ++ ". Process killed."]
        , flagWrites := [false]
        , killed := true
        , ram := ram_inc_max
        , swap := swap_inc_max
        , gpu := gpu_inc_max }
      else if MAX_SWAP_PERC < perc x.swapUsed env.swap_max then
        { diagnostics := [swapBreachMsg x.swapUsed env.swap_max ++ ". Process killed."]
        , flagWrites := [false]
        , killed := true
        , ram := ram_inc_max
        , swap := swap_inc_max
        , gpu := gpu_inc_max }
      else
        monitorLoop env rest
          (max ram_inc_max (x.ramUsed - env.ram_0))
          (max swap_inc_max (x.swapUsed - env.swap_0))
          (gpuStep env gpu_inc_max x)

/-- BaselineVSLAMLab.monitor_memory (lines 168-248): the three
incremental maxima start at 0 (line 194) and the loop runs over the
observed samples; on return the memory_stats dictionary holds the final
accumulators. -/
def monitor_memory (env : MonitorEnv) : MonitorResult :=
  monitorLoop env env.samples 0 0 0

/-- A sample breaches a threshold on its tick (RAM or swap ratio
strictly above its limit). -/
def breachB (env : MonitorEnv) (x : Sample) : Bool :=
  decide (MAX_RAM_PERC < perc x.ramUsed env.ram_max) ||
    decide (MAX_SWAP_PERC < perc x.swapUsed env.swap_max)

/-- Some observed sample breaches a threshold, which is exactly when the
monitor kills the process. -/
def breachOccurred (env : MonitorEnv) : Bool := env.samples.any (breachB env)

/-- Spawn failures of subprocess.Popen (execute line 258). -/
inductive SpawnError where
  | fileMissing
  | permissionDenied
deriving DecidableEq, Repr

/-- A value of the returned run dictionary statistics fields: a number,
or the string sentinel used as default by memory_stats.get(key, N/A)
when the monitor thread died before storing its stats. -/
inductive StatVal where
  | num (q : ℚ)
  | na
deriving DecidableEq, Repr

/-- The dictionary returned by execute (lines 277-283). -/
structure RunResult where
  success : Bool
  comments : String
  ram : StatVal
  swap : StatVal
  gpu : StatVal
deriving DecidableEq, Repr

/-- The environment of one execute call: the outcome of the Popen spawn,
whether process.communicate raised subprocess.TimeoutExpired, the
environment the monitor thread observes, the exit code of the child
process (never consulted by execute), the run index and timeout, and a
filesystem oracle for the artifact existence check of line 274. -/
structure ExecEnv where
  spawnOutcome : Except SpawnError Unit
  timedOut : Bool
  monitorEnv : MonitorEnv
  exitCode : Int
  exp_it : ℕ
  timeout_seconds : ℕ
  fileExists : String → Bool

/-- BaselineVSLAMLab.execute (lines 250-283).  A spawn failure
propagates as the exception itself.  Otherwise: comments starts empty and
success_flag[0] starts true; a timeout assigns the timeout comment and
writes false; after the monitor thread is joined the comment queue is
drained in emission order, each entry followed by a newline, and the
monitor writes to success_flag[0] are applied; a missing artifact writes
false; the result carries the flag, the comments and the memory_stats of
the completed monitor. -/
def execute (env : ExecEnv) : Except SpawnError RunResult :=
  match env.spawnOutcome with
  | Except.error e => Except.error e
  | Except.ok _ =>
    let mres := monitor_memory env.monitorEnv
    let comments0 : String := if env.timedOut then timeoutComment env.timeout_seconds else ""
    let flag0 : Bool := if env.timedOut then false else true
    let comments1 := comments0 ++ String.join (mres.diagnostics.map (fun m => m ++ "\n"))
    let flag1 := mres.flagWrites.foldl (fun _ w => w) flag0
    let flag2 := if env.fileExists (artifactName env.exp_it) then flag1 else false
    Except.ok
      { success := flag2
      , comments := comments1
      , ram := StatVal.num mres.ram
      , swap := StatVal.num mres.swap
      , gpu := StatVal.num mres.gpu }

/-- The successive values written to success_flag[0] during a run: by the
timeout handler (line 267), by the monitor on a breach (lines 210, 218),
and by the artifact existence check (line 275). -/
def runFlagWrites (env : ExecEnv) : List Bool :=
  (if env.timedOut then [false] else []) ++
    (monitor_memory env.monitorEnv).flagWrites ++
      (if env.fileExists (artifactName env.exp_it) then [] else [false])

/-- The RAM accumulator after folding a list of samples (line 224). -/
def ramAcc (env : MonitorEnv) (l : List Sample) (r : ℚ) : ℚ :=
  l.foldl (fun a x => max a (x.ramUsed - env.ram_0)) r

/-- The swap accumulator after folding a list of samples (line 225). -/
def swapAcc (env : MonitorEnv) (l : List Sample) (s : ℚ) : ℚ :=
  l.foldl (fun a x => max a (x.swapUsed - env.swap_0)) s

/-- The gpu accumulator after folding a list of samples (lines 227-232). -/
def gpuAcc (env : MonitorEnv) (l : List Sample) (g : ℚ) : ℚ :=
  l.foldl (gpuStep env) g

/-! Concrete runs used as witnesses and counterexamples. -/

/-- A sample far below both thresholds for the environments below. -/
def sampleQuiet : Sample := { ramUsed := 10, swapUsed := 1, gpuUsed := none }

/-- A sample whose RAM ratio (96/100) breaches the 0.95 threshold. -/
def sampleRamHot : Sample := { ramUsed := 96, swapUsed := 0, gpuUsed := none }

/-- A sample whose swap ratio (81/100) breaches the 0.80 threshold while
RAM stays below its threshold. -/
def sampleSwapHot : Sample := { ramUsed := 0, swapUsed := 81, gpuUsed := none }

/-- A monitor environment with 100 GB totals, no GPU handle and one
quiet sample. -/
def envMQuiet : MonitorEnv :=
  { gpu_handle := false
  , swap_0 := 1
  , swap_max := 100
  , ram_0 := 8
  , ram_max := 100
  , gpu_0 := 0
  , samples := [sampleQuiet] }

/-- A monitor environment observing a quiet sample and then a RAM
breach. -/
def envMHot : MonitorEnv :=
  { gpu_handle := false
  , swap_0 := 0
  , swap_max := 100
  , ram_0 := 0
  , ram_max := 100
  , gpu_0 := 0
  , samples := [sampleQuiet, sampleRamHot] }

/-- A monitor environment whose single sample sits 1 GB below the RAM
baseline snapshot. -/
def envMBelow : MonitorEnv :=
  { gpu_handle := false
  , swap_0 := 0
  , swap_max := 100
  , ram_0 := 1
  , ram_max := 100
  , gpu_0 := 0
  , samples := [{ ramUsed := 0, swapUsed := 0, gpuUsed := none }] }

/-- A run that spawns fine, never times out, observes one quiet sample
and finds the artifact; the child exit code is 3. -/
def envOk : ExecEnv :=
  { spawnOutcome := Except.ok ()
  , timedOut := false
  , monitorEnv := envMQuiet
  , exitCode := 3
  , exp_it := 0
  , timeout_seconds := 60000000
  , fileExists := fun _ => true }

/-- A run whose Popen call fails with a missing executable. -/
def envSpawnFail : ExecEnv :=
  { envOk with spawnOutcome := Except.error SpawnError.fileMissing }

/-! Helper lemmas about the monitor loop. -/

lemma dropWhile_head_not {α : Type} (p : α → Bool) :
    ∀ (l : List α) (x : α) (xs : List α), l.dropWhile p = x :: xs → p x = false := by
  intro l
  induction l with
  | nil => intro x xs h; simp [List.dropWhile] at h
  | cons a t ih =>
    intro x xs h
    by_cases hp : p a = true
    · rw [List.dropWhile_cons_of_pos hp] at h
      exact ih x xs h
    · rw [List.dropWhile_cons_of_neg hp] at h
      rw [← (List.cons.inj h).1]
      simpa using hp

lemma le_foldl_max (l : List ℚ) : ∀ a : ℚ, a ≤ l.foldl max a := by
  induction l with
  | nil => intro a; simp
  | cons x t ih =>
    intro a
    exact le_trans (le_max_left a x) (by simpa using ih (max a x))

lemma breachB_eq_false_iff (env : MonitorEnv) (x : Sample) :
    breachB env x = false ↔
      ¬ MAX_RAM_PERC < perc x.ramUsed env.ram_max ∧
        ¬ MAX_SWAP_PERC < perc x.swapUsed env.swap_max := by
  simp [breachB]

lemma monitorLoop_cons_noBreach (env : MonitorEnv) (x : Sample)
    (rest : List Sample) (r s g : ℚ) (h : breachB env x = false) :
    monitorLoop env (x :: rest) r s g =
      monitorLoop env rest (max r (x.ramUsed - env.ram_0))
        (max s (x.swapUsed - env.swap_0)) (gpuStep env g x) := by
  rcases (breachB_eq_false_iff env x).1 h with ⟨h1, h2⟩
  simp [monitorLoop, h1, h2]

lemma monitorLoop_cons_ramBreach (env : MonitorEnv) (x : Sample)
    (rest : List Sample) (r s g : ℚ)
    (h : MAX_RAM_PERC < perc x.ramUsed env.ram_max) :
    monitorLoop env (x :: rest) r s g =
      { diagnostics := [ramBreachMsg x.ramUsed env.ram_max ++ ". Process killed."]
      , flagWrites := [false]
      , killed := true
      , ram := r
      , swap := s
      , gpu := g } := by
  simp [monitorLoop, h]

lemma monitorLoop_cons_swapBreach (env : MonitorEnv) (x : Sample)
    (rest : List Sample) (r s g : ℚ)
    (h1 : ¬ MAX_RAM_PERC < perc x.ramUsed env.ram_max)
    (h2 : MAX_SWAP_PERC < perc x.swapUsed env.swap_max) :
    monitorLoop env (x :: rest) r s g =
      { diagnostics := [swapBreachMsg x.swapUsed env.swap_max ++ ". Process killed."]
      , flagWrites := [false]
      , killed := true
      , ram := r
      , swap := s
      , gpu := g } := by
  simp [monitorLoop, h1, h2]

lemma monitorLoop_append_noBreach (env : MonitorEnv) (pre rest : List Sample)
    (r s g : ℚ) (h : ∀ x ∈ pre, breachB env x = false) :
    monitorLoop env (pre ++ rest) r s g =
      monitorLoop env rest (ramAcc env pre r) (swapAcc env pre s) (gpuAcc env pre g) := by
  induction pre generalizing r s g with
  | nil => simp [ramAcc, swapAcc, gpuAcc]
  | cons a t ih =>
    rw [List.cons_append,
      monitorLoop_cons_noBreach env a (t ++ rest) r s g (h a (by simp)),
      ih _ _ _ (fun x hx => h x (by simp [hx]))]
    simp [ramAcc, swapAcc, gpuAcc]

lemma monitorLoop_all_noBreach (env : MonitorEnv) (l : List Sample)
    (r s g : ℚ) (h : ∀ x ∈ l, breachB env x = false) :
    monitorLoop env l r s g =
      { diagnostics := []
      , flagWrites := []
      , killed := false
      , ram := ramAcc env l r
      , swap := swapAcc env l s
      , gpu := gpuAcc env l g } := by
  have h2 := monitorLoop_append_noBreach env l [] r s g h
  rw [List.append_nil] at h2
  rw [h2]
  rfl

lemma monitorLoop_flagWrites (env : MonitorEnv) :
    ∀ (l : List Sample) (r s g : ℚ),
      (monitorLoop env l r s g).flagWrites =
        if l.any (breachB env) then [false] else []
  | [], r, s, g => by simp [monitorLoop]
  | a :: t, r, s, g => by
    by_cases hb : breachB env a = true
    · by_cases h0 : MAX_RAM_PERC < perc a.ramUsed env.ram_max
      · rw [monitorLoop_cons_ramBreach env a t r s g h0]
        simp [List.any_cons, hb]
      · have h1 : MAX_SWAP_PERC < perc a.swapUsed env.swap_max := by
          by_contra h1
          rw [(breachB_eq_false_iff env a).2 ⟨h0, h1⟩] at hb
          exact Bool.false_ne_true hb
        rw [monitorLoop_cons_swapBreach env a t r s g h0 h1]
        simp [List.any_cons, hb]
    · have hb' : breachB env a = false := by simpa using hb
      rw [monitorLoop_cons_noBreach env a t r s g hb',
        monitorLoop_flagWrites env t _ _ _]
      simp [List.any_cons, hb']

lemma monitor_memory_flagWrites (env : MonitorEnv) :
    (monitor_memory env).flagWrites =
      if breachOccurred env then [false] else [] :=
  monitorLoop_flagWrites env env.samples 0 0 0

lemma monitorLoop_gpu_no_handle (env : MonitorEnv) (hg : env.gpu_handle = false) :
    ∀ (l : List Sample) (r s g : ℚ), (monitorLoop env l r s g).gpu = g
  | [], r, s, g => by simp [monitorLoop]
  | a :: t, r, s, g => by
    by_cases h0 : MAX_RAM_PERC < perc a.ramUsed env.ram_max
    · rw [monitorLoop_cons_ramBreach env a t r s g h0]
    · by_cases h1 : MAX_SWAP_PERC < perc a.swapUsed env.swap_max
      · rw [monitorLoop_cons_swapBreach env a t r s g h0 h1]
      · have hb : breachB env a = false := by
          simp [breachB, h0, h1]
        rw [monitorLoop_cons_noBreach env a t r s g hb,
          monitorLoop_gpu_no_handle env hg t _ _ _]
        simp [gpuStep, hg]

lemma execute_ok_eq (env : ExecEnv) (h : env.spawnOutcome = Except.ok ()) :
    execute env = Except.ok
      { success :=
          if env.fileExists (artifactName env.exp_it) then
            (monitor_memory env.monitorEnv).flagWrites.foldl (fun _ w => w)
              (if env.timedOut then false else true)
          else false
      , comments :=
          (if env.timedOut then timeoutComment env.timeout_seconds else "") ++
            String.join ((monitor_memory env.monitorEnv).diagnostics.map
              (fun m => m ++ "\n"))
      , ram := StatVal.num (monitor_memory env.monitorEnv).ram
      , swap := StatVal.num (monitor_memory env.monitorEnv).swap
      , gpu := StatVal.num (monitor_memory env.monitorEnv).gpu } := by
  unfold execute
  rw [h]

lemma execute_success_eq (env : ExecEnv) (h : env.spawnOutcome = Except.ok ()) :
    Except.map RunResult.success (execute env) =
      Except.ok (!env.timedOut && !breachOccurred env.monitorEnv &&
        env.fileExists (artifactName env.exp_it)) := by
  rw [execute_ok_eq env h]
  cases ht : env.timedOut <;>
    cases hb : breachOccurred env.monitorEnv <;>
      cases ha : env.fileExists (artifactName env.exp_it) <;>
        simp [Except.map, monitor_memory_flagWrites, ht, hb, ha]

lemma monitor_peaks_takeWhile (env : MonitorEnv) :
    (monitor_memory env).ram =
      ramAcc env (env.samples.takeWhile (fun x => !breachB env x)) 0 ∧
    (monitor_memory env).swap =
      swapAcc env (env.samples.takeWhile (fun x => !breachB env x)) 0 := by
  have hpre : ∀ y ∈ env.samples.takeWhile (fun x => !breachB env x),
      breachB env y = false := by
    intro y hy
    have h1 := List.mem_takeWhile_imp hy
    simpa using h1
  have key : monitor_memory env =
      monitorLoop env (env.samples.dropWhile (fun x => !breachB env x))
        (ramAcc env (env.samples.takeWhile (fun x => !breachB env x)) 0)
        (swapAcc env (env.samples.takeWhile (fun x => !breachB env x)) 0)
        (gpuAcc env (env.samples.takeWhile (fun x => !breachB env x)) 0) := by
    rw [monitor_memory]
    conv_lhs =>
      rw [← List.takeWhile_append_dropWhile (fun x => !breachB env x) env.samples]
    exact monitorLoop_append_noBreach env _ _ 0 0 0 hpre
  rw [key]
  cases hd : env.samples.dropWhile (fun x => !breachB env x) with
  | nil => exact ⟨rfl, rfl⟩
  | cons x post =>
    have hx : breachB env x = true := by
      have h2 := dropWhile_head_not (fun x => !breachB env x) env.samples x post hd
      simpa using h2
    by_cases h0 : MAX_RAM_PERC < perc x.ramUsed env.ram_max
    · rw [monitorLoop_cons_ramBreach env x post _ _ _ h0]
      exact ⟨rfl, rfl⟩
    · have h1 : MAX_SWAP_PERC < perc x.swapUsed env.swap_max := by
        by_contra h1
        rw [(breachB_eq_false_iff env x).2 ⟨h0, h1⟩] at hx
        exact Bool.false_ne_true hx
      rw [monitorLoop_cons_swapBreach env x post _ _ _ h0 h1]
      exact ⟨rfl, rfl⟩

/-! Arithmetic facts about the concrete samples. -/

lemma quiet_no_breach_in_envMQuiet : breachB envMQuiet sampleQuiet = false :=
  (breachB_eq_false_iff envMQuiet sampleQuiet).2
    ⟨by norm_num [perc, MAX_RAM_PERC, envMQuiet, sampleQuiet],
     by norm_num [perc, MAX_SWAP_PERC, envMQuiet, sampleQuiet]⟩

lemma quiet_no_breach_in_envMHot : breachB envMHot sampleQuiet = false :=
  (breachB_eq_false_iff envMHot sampleQuiet).2
    ⟨by norm_num [perc, MAX_RAM_PERC, envMHot, sampleQuiet],
     by norm_num [perc, MAX_SWAP_PERC, envMHot, sampleQuiet]⟩

lemma ramHot_ram_perc :
    MAX_RAM_PERC < perc sampleRamHot.ramUsed envMHot.ram_max := by
  norm_num [perc, MAX_RAM_PERC, envMHot, sampleRamHot]

lemma swapHot_ram_perc :
    ¬ MAX_RAM_PERC < perc sampleSwapHot.ramUsed envMHot.ram_max := by
  norm_num [perc, MAX_RAM_PERC, envMHot, sampleSwapHot]

lemma swapHot_swap_perc :
    MAX_SWAP_PERC < perc sampleSwapHot.swapUsed envMHot.swap_max := by
  norm_num [perc, MAX_SWAP_PERC, envMHot, sampleSwapHot]

lemma ramHot_breachB_true : breachB envMHot sampleRamHot = true := by
  rw [breachB]
  simp [ramHot_ram_perc]

/-! Claims. -/

/-- Claim C1: for every supervised run whose spawn succeeded, the
returned success field is true exactly when no timeout occurred, no RAM
or swap threshold breach occurred on any observed sample, and the
expected artifact (the run index zero-padded to five digits, an
underscore, KeyFrameTrajectory.csv) exists after the run; and the exit
code of the child process has no influence on the result. -/
theorem execute_success_criterion (env : ExecEnv)
    (h : env.spawnOutcome = Except.ok ()) :
    (Except.map RunResult.success (execute env) = Except.ok true ↔
      env.timedOut = false ∧ breachOccurred env.monitorEnv = false ∧
        env.fileExists (artifactName env.exp_it) = true) ∧
    ∀ c : Int, execute { env with exitCode := c } = execute env := by
  constructor
  · rw [execute_success_eq env h]
    simp [Bool.and_eq_true, Bool.not_eq_true', and_assoc]
  · intro c
    rfl

/-- Witness for execute_success_criterion at the concrete run envOk. -/
theorem execute_success_criterion_witness :
    Except.map RunResult.success (execute envOk) = Except.ok true ↔
      envOk.timedOut = false ∧ breachOccurred envOk.monitorEnv = false ∧
        envOk.fileExists (artifactName envOk.exp_it) = true :=
  (execute_success_criterion envOk rfl).1

/-- Claim C5: a failure of the Popen spawn propagates from execute as
the exception itself instead of being folded into a RunResult. -/
theorem execute_propagates_spawn_error (env : ExecEnv) (e : SpawnError)
    (h : env.spawnOutcome = Except.error e) :
    execute env = Except.error e := by
  unfold execute
  rw [h]

/-- Witness for execute_propagates_spawn_error at the concrete run
envSpawnFail. -/
theorem execute_propagates_spawn_error_witness :
    execute envSpawnFail = Except.error SpawnError.fileMissing :=
  execute_propagates_spawn_error envSpawnFail SpawnError.fileMissing rfl

/-- Claim C7: the result of a spawned run is aggregated from the
completed monitor outcome, reflecting that the monitor thread is joined
before the queue is drained and the stats are read: comments equal the
timeout comment, if any, followed by every diagnostic the completed
monitor emitted, in emission order, each followed by a newline, and the
peak statistics are the completed monitor final stats. -/
theorem execute_drains_after_join (env : ExecEnv)
    (h : env.spawnOutcome = Except.ok ()) :
    Except.map RunResult.comments (execute env) =
      Except.ok ((if env.timedOut then timeoutComment env.timeout_seconds else "") ++
        String.join ((monitor_memory env.monitorEnv).diagnostics.map
          (fun m => m ++ "\n"))) ∧
    Except.map RunResult.ram (execute env) =
      Except.ok (StatVal.num (monitor_memory env.monitorEnv).ram) ∧
    Except.map RunResult.swap (execute env) =
      Except.ok (StatVal.num (monitor_memory env.monitorEnv).swap) ∧
    Except.map RunResult.gpu (execute env) =
      Except.ok (StatVal.num (monitor_memory env.monitorEnv).gpu) := by
  rw [execute_ok_eq env h]
  exact ⟨rfl, rfl, rfl, rfl⟩

/-- Witness for execute_drains_after_join at the concrete run envOk. -/
theorem execute_drains_after_join_witness :
    Except.map RunResult.comments (execute envOk) =
      Except.ok ((if envOk.timedOut then timeoutComment envOk.timeout_seconds else "") ++
        String.join ((monitor_memory envOk.monitorEnv).diagnostics.map
          (fun m => m ++ "\n"))) :=
  (execute_drains_after_join envOk rfl).1

/-- Claim C8: a run that spawns, whose child exits on its own within the
timeout, that breaches no threshold on any observed sample and leaves
the expected artifact, returns success true and empty comments. -/
theorem execute_clean_run_success (env : ExecEnv)
    (hs : env.spawnOutcome = Except.ok ())
    (ht : env.timedOut = false)
    (hb : ∀ x ∈ env.monitorEnv.samples, breachB env.monitorEnv x = false)
    (ha : env.fileExists (artifactName env.exp_it) = true) :
    Except.map RunResult.success (execute env) = Except.ok true ∧
    Except.map RunResult.comments (execute env) = Except.ok "" := by
  have hbo : breachOccurred env.monitorEnv = false := by
    rw [breachOccurred, List.any_eq_false]
    intro x hx
    simp [hb x hx]
  constructor
  · rw [execute_success_eq env hs, ht, hbo, ha]
    rfl
  · have hd : (monitor_memory env.monitorEnv).diagnostics = [] := by
      rw [monitor_memory, monitorLoop_all_noBreach env.monitorEnv _ 0 0 0 hb]
    rw [execute_ok_eq env hs]
    simp [Except.map, ht, hd, String.join]

/-- Witness for execute_clean_run_success at the concrete run envOk. -/
theorem execute_clean_run_success_witness :
    Except.map RunResult.success (execute envOk) = Except.ok true ∧
    Except.map RunResult.comments (execute envOk) = Except.ok "" :=
  execute_clean_run_success envOk rfl rfl
    (by
      intro x hx
      simp only [envOk, envMQuiet, List.mem_singleton] at hx
      rw [hx]
      exact quiet_no_breach_in_envMQuiet)
    rfl

/-- Claim C9: every value written to the shared success flag during a
spawned run - by the timeout handler, by the monitor on a breach, and by
the artifact existence check - is false, and the returned success field
is true exactly when no write occurred: the flag starts true, only falls,
and once any failure condition is recorded the final result is failure. -/
theorem success_flag_writes_monotone (env : ExecEnv)
    (h : env.spawnOutcome = Except.ok ()) :
    (∀ w ∈ runFlagWrites env, w = false) ∧
    Except.map RunResult.success (execute env) =
      Except.ok (runFlagWrites env).isEmpty := by
  constructor
  · intro w hw
    rw [runFlagWrites, monitor_memory_flagWrites] at hw
    rcases List.mem_append.1 hw with h1 | h1
    · rcases List.mem_append.1 h1 with h2 | h2
      · by_cases ht : env.timedOut = true <;> simp [ht] at h2
        exact h2
      · by_cases hb : breachOccurred env.monitorEnv = true <;> simp [hb] at h2
        exact h2
    · by_cases ha : env.fileExists (artifactName env.exp_it) = true <;>
        simp [ha] at h1
      exact h1
  · rw [execute_success_eq env h, runFlagWrites, monitor_memory_flagWrites]
    cases ht : env.timedOut <;>
      cases hb : breachOccurred env.monitorEnv <;>
        cases ha : env.fileExists (artifactName env.exp_it) <;> simp

/-- Witness for success_flag_writes_monotone at the concrete run
envOk. -/
theorem success_flag_writes_monotone_witness :
    Except.map RunResult.success (execute envOk) =
      Except.ok (runFlagWrites envOk).isEmpty :=
  (success_flag_writes_monotone envOk rfl).2

/-- Claim C3: on a sampling tick the RAM ratio is checked first: if it
exceeds MAX_RAM_PERC (0.95 of total) the monitor emits the RAM
diagnostic, writes false to the success flag, invokes kill_process and
stops sampling, whatever the swap reading on that tick; otherwise, if
the swap ratio exceeds MAX_SWAP_PERC (0.80 of total), it does the same
with the swap diagnostic.  In both cases the remaining samples are
ignored and the peak accumulators are left untouched. -/
theorem monitor_tick_breach_behavior (env : MonitorEnv) (x : Sample)
    (rest : List Sample) (r s g : ℚ) :
    (MAX_RAM_PERC < perc x.ramUsed env.ram_max →
      monitorLoop env (x :: rest) r s g =
        { diagnostics := [ramBreachMsg x.ramUsed env.ram_max ++ ". Process killed."]
        , flagWrites := [false]
        , killed := true
        , ram := r
        , swap := s
        , gpu := g }) ∧
    (¬ MAX_RAM_PERC < perc x.ramUsed env.ram_max →
      MAX_SWAP_PERC < perc x.swapUsed env.swap_max →
      monitorLoop env (x :: rest) r s g =
        { diagnostics := [swapBreachMsg x.swapUsed env.swap_max ++ ". Process killed."]
        , flagWrites := [false]
        , killed := true
        , ram := r
        , swap := s
        , gpu := g }) :=
  ⟨fun h => monitorLoop_cons_ramBreach env x rest r s g h,
   fun h1 h2 => monitorLoop_cons_swapBreach env x rest r s g h1 h2⟩

/-- Witness for monitor_tick_breach_behavior: a RAM breach tick and a
swap breach tick in the concrete environment envMHot. -/
theorem monitor_tick_breach_behavior_witness :
    monitorLoop envMHot [sampleRamHot] 0 0 0 =
      { diagnostics := [ramBreachMsg sampleRamHot.ramUsed envMHot.ram_max ++ ". Process killed."]
      , flagWrites := [false]
      , killed := true
      , ram := 0
      , swap := 0
      , gpu := 0 } ∧
    monitorLoop envMHot [sampleSwapHot] 0 0 0 =
      { diagnostics := [swapBreachMsg sampleSwapHot.swapUsed envMHot.swap_max ++ ". Process killed."]
      , flagWrites := [false]
      , killed := true
      , ram := 0
      , swap := 0
      , gpu := 0 } :=
  ⟨(monitor_tick_breach_behavior envMHot sampleRamHot [] 0 0 0).1 ramHot_ram_perc,
   (monitor_tick_breach_behavior envMHot sampleSwapHot [] 0 0 0).2
     swapHot_ram_perc swapHot_swap_perc⟩

/-- Claim C10: when the observed samples split as a breach-free part,
one breaching sample, and a remainder, the reported peaks are the folds
over the breach-free part alone: the breaching tick, and every tick
after it, contribute nothing to ram and swap peaks, and the monitor
killed the process. -/
theorem breach_tick_not_in_peaks (env : MonitorEnv) (pre : List Sample)
    (x : Sample) (post : List Sample)
    (hsamp : env.samples = pre ++ x :: post)
    (hpre : ∀ y ∈ pre, breachB env y = false)
    (hx : breachB env x = true) :
    (monitor_memory env).killed = true ∧
    (monitor_memory env).ram = ramAcc env pre 0 ∧
    (monitor_memory env).swap = swapAcc env pre 0 := by
  rw [monitor_memory, hsamp, monitorLoop_append_noBreach env pre (x :: post) 0 0 0 hpre]
  by_cases h0 : MAX_RAM_PERC < perc x.ramUsed env.ram_max
  · rw [monitorLoop_cons_ramBreach env x post _ _ _ h0]
    exact ⟨rfl, rfl, rfl⟩
  · have h1 : MAX_SWAP_PERC < perc x.swapUsed env.swap_max := by
      by_contra h1
      rw [(breachB_eq_false_iff env x).2 ⟨h0, h1⟩] at hx
      exact Bool.false_ne_true hx
    rw [monitorLoop_cons_swapBreach env x post _ _ _ h0 h1]
    exact ⟨rfl, rfl, rfl⟩

/-- Witness for breach_tick_not_in_peaks: in envMHot the quiet first
sample alone determines the peaks, the RAM-breaching second sample does
not. -/
theorem breach_tick_not_in_peaks_witness :
    (monitor_memory envMHot).killed = true ∧
    (monitor_memory envMHot).ram = ramAcc envMHot [sampleQuiet] 0 ∧
    (monitor_memory envMHot).swap = swapAcc envMHot [sampleQuiet] 0 :=
  breach_tick_not_in_peaks envMHot [sampleQuiet] sampleRamHot [] rfl
    (by
      intro y hy
      simp only [List.mem_singleton] at hy
      rw [hy]
      exact quiet_no_breach_in_envMHot)
    ramHot_breachB_true

/-- Claim C2 counterexample: the run envOk obtains no GPU handle, yet
the gpu field of its result is the number 0, not the N/A sentinel the
claim requires. -/
theorem gpu_peak_zero_when_no_handle_cex :
    envOk.monitorEnv.gpu_handle = false ∧
    Except.map RunResult.gpu (execute envOk) = Except.ok (StatVal.num 0) ∧
    StatVal.num 0 ≠ StatVal.na := by
  refine ⟨rfl, ?_, by decide⟩
  rw [execute_ok_eq envOk rfl]
  show Except.ok (StatVal.num (monitor_memory envOk.monitorEnv).gpu) =
    Except.ok (StatVal.num 0)
  rw [monitor_memory, monitorLoop_gpu_no_handle envOk.monitorEnv rfl]

/-- Claim C2 amended: for every spawned run in which no GPU handle is
obtained by the monitor, the gpu field of the result is the number 0,
because the incremental gpu maximum starts at 0 and is never updated;
the N/A sentinel would be returned only if memory_stats lacked the key,
which a completed monitor never leaves. -/
theorem gpu_peak_zero_when_no_handle (env : ExecEnv)
    (hs : env.spawnOutcome = Except.ok ())
    (hg : env.monitorEnv.gpu_handle = false) :
    Except.map RunResult.gpu (execute env) = Except.ok (StatVal.num 0) := by
  rw [execute_ok_eq env hs]
  show Except.ok (StatVal.num (monitor_memory env.monitorEnv).gpu) =
    Except.ok (StatVal.num 0)
  rw [monitor_memory, monitorLoop_gpu_no_handle env.monitorEnv hg]

/-- Witness for gpu_peak_zero_when_no_handle at the concrete run
envOk. -/
theorem gpu_peak_zero_when_no_handle_witness :
    Except.map RunResult.gpu (execute envOk) = Except.ok (StatVal.num 0) :=
  gpu_peak_zero_when_no_handle envOk rfl rfl

/-- Claim C4 counterexample: kill_process on a process whose pid is
already gone (exited and reaped, as after a first kill_process call has
waited on it) raises ProcessLookupError from the unguarded os.getpgid
instead of returning. -/
theorem kill_process_second_call_raises :
    kill_process { pidExists := false, diesOnSigterm := true } =
      Except.error OSError.processLookup := rfl

/-- Claim C4 amended: kill_process is not idempotent: once the process
has exited and been reaped, the unguarded os.getpgid raises
ProcessLookupError; the only condition swallowed is the expiry of the 5
second grace wait, which escalates to SIGKILL.  Every invocation on a
still-existing process group completes without raising and logs exactly
one error-level Process killed. confirmation. -/
theorem kill_process_single_log (p : ProcState) (h : p.pidExists = true) :
    kill_process p = Except.ok
      { sigterm := true
      , sigkill := !p.diesOnSigterm
      , logs := [("Process killed.", LogLevel.error)] } := by
  rw [kill_process, if_pos h]

/-- Witness for kill_process_single_log on a live process that resists
SIGTERM. -/
theorem kill_process_single_log_witness :
    kill_process { pidExists := true, diesOnSigterm := false } = Except.ok
      { sigterm := true
      , sigkill := true
      , logs := [("Process killed.", LogLevel.error)] } :=
  kill_process_single_log { pidExists := true, diesOnSigterm := false } rfl

/-- Claim C6 counterexample: in envMBelow the baseline RAM snapshot is
1 GB and the single quiet sample reads 0 GB, so the only observed
(current - baseline) value is -1; yet the reported ram peak is 0, not
the maximum observed increment. -/
theorem ram_peak_not_max_observed_cex :
    (monitor_memory envMBelow).ram = 0 ∧
    envMBelow.samples.map (fun x => x.ramUsed - envMBelow.ram_0) = [-1] ∧
    (0 : ℚ) ≠ -1 := by
  have hnb : ∀ x ∈ envMBelow.samples, breachB envMBelow x = false := by
    intro x hx
    simp only [envMBelow, List.mem_singleton] at hx
    rw [hx]
    exact (breachB_eq_false_iff envMBelow _).2
      ⟨by norm_num [perc, MAX_RAM_PERC, envMBelow],
       by norm_num [perc, MAX_SWAP_PERC, envMBelow]⟩
  have h2 := monitorLoop_all_noBreach envMBelow envMBelow.samples 0 0 0 hnb
  refine ⟨?_, by norm_num [envMBelow], by norm_num⟩
  rw [monitor_memory, h2]
  show ramAcc envMBelow envMBelow.samples 0 = 0
  rw [ramAcc]
  show max 0 ((0 : ℚ) - 1) = 0
  rw [max_eq_left (by norm_num : (0 : ℚ) - 1 ≤ 0)]

/-- Claim C6 amended: the reported ram and swap peaks are the running
maxima started at 0 over the observed (current - baseline) increments of
the breach-free part of the sampled trace - that is, the maximum of 0
and those increments, an increment below the baseline being clamped -
and are therefore always nonnegative, and never a raw absolute usage
reading. -/
theorem peaks_are_clamped_incremental_max (env : MonitorEnv) :
    (monitor_memory env).ram =
      ((env.samples.takeWhile (fun x => !breachB env x)).map
        (fun x => x.ramUsed - env.ram_0)).foldl max 0 ∧
    (monitor_memory env).swap =
      ((env.samples.takeWhile (fun x => !breachB env x)).map
        (fun x => x.swapUsed - env.swap_0)).foldl max 0 ∧
    0 ≤ (monitor_memory env).ram ∧ 0 ≤ (monitor_memory env).swap := by
  obtain ⟨hr, hs⟩ := monitor_peaks_takeWhile env
  have hr2 : (monitor_memory env).ram =
      ((env.samples.takeWhile (fun x => !breachB env x)).map
        (fun x => x.ramUsed - env.ram_0)).foldl max 0 := by
    rw [hr, ramAcc, List.foldl_map]
  have hs2 : (monitor_memory env).swap =
      ((env.samples.takeWhile (fun x => !breachB env x)).map
        (fun x => x.swapUsed - env.swap_0)).foldl max 0 := by
    rw [hs, swapAcc, List.foldl_map]
  refine ⟨hr2, hs2, ?_, ?_⟩
  · rw [hr2]
    exact le_foldl_max _ 0
  · rw [hs2]
    exact le_foldl_max _ 0

end VSLAMLab
